import Mathlib

/-!
Verification development for the `union-fn` procedural macro.

The development shallowly embeds the two halves of the crate that the
specification talks about:

* the validator of `src/macro/src/analyse.rs` (`UnionFnState`,
  `register_context`, `register_output`, `register_sigature`,
  `register_method`, `UnionFn::new`, `UnionFn::sort_items`,
  `UnionFn::analyze_items`), modelled over a syntax model that mirrors
  exactly the parts of `syn` the analysis inspects;
* the semantics of the code generated by `src/macro/src/expand.rs`
  (tagged enum, packed argument union, call-optimized struct, delegators
  and implementation table), modelled as a family of operations with
  explicit state passing for the mutable context.

Rust `&mut` state is modelled by explicit state passing, `syn::Result`
by `Except`, `proc_macro2::Span` by `Nat` identifiers, and the unsafe
union-field read by an `Option`-returning read that succeeds exactly
when the field read is the field that was written.
-/

namespace UnionFnSpec

/-- Model of `proc_macro2::Span`: an opaque source location identifier. -/
abbrev Span := Nat

/-- Model of `syn::Type` restricted to the shapes the analysis compares:
path types such as `i32` or `Self::Output` (`path` holds the path
segments) and mutable references such as `&mut Self::Context`.
`syn::Type` equality is token-for-token, which the derived decidable
equality mirrors. -/
inductive Ty where
  | path (segs : List String)
  | mutRef (t : Ty)
  | unit
  deriving DecidableEq, Repr

/-- The token sequence `Self::Output` compared against return types in
`UnionFnState::register_method` (src/macro/src/analyse.rs:284). -/
def tySelfOutput : Ty := Ty.path ["Self", "Output"]

/-- The token sequence `&mut Self::Context` compared against first
parameters in `UnionFnState::register_method` (src/macro/src/analyse.rs:317). -/
def tySelfContextRef : Ty := Ty.mutRef (Ty.path ["Self", "Context"])

/-- Model of `syn::Abi`: extern ABI with an optional name literal.
`syn::Abi` equality compares the name literal only (token spans are
ignored), so the span is kept separately for error reporting. -/
structure Abi where
  name : Option String
  span : Span
  deriving DecidableEq, Repr

/-- Equality test used for `sig.abi != signature.abi`
(src/macro/src/analyse.rs:256): `syn::Abi` compares by name literal. -/
def abiEq (a b : Option Abi) : Prop := a.map Abi.name = b.map Abi.name

instance (a b : Option Abi) : Decidable (abiEq a b) := by
  unfold abiEq; infer_instance

/-- Model of `syn::Pat` as far as `ident_or_numbered`
(src/macro/src/method.rs:108) looks at it: a plain path consisting of a
single identifier, or anything else. -/
inductive Pat where
  | pathIdent (s : String)
  | other
  deriving DecidableEq, Repr

/-- Model of `syn::PatType`: a typed function argument `pat: ty`. -/
structure PatType where
  span : Span
  pat : Pat
  ty : Ty
  deriving DecidableEq, Repr

/-- Model of `syn::FnArg`: either a `self` receiver or a typed argument. -/
inductive FnArg where
  | receiver (span : Span)
  | typed (pt : PatType)
  deriving DecidableEq, Repr

/-- Model of the `syn::ReturnType::Type` payload: the declared return
type together with its span. `syn::ReturnType::Default` is modelled as
`none` at use sites. -/
structure RetTy where
  span : Span
  ty : Ty
  deriving DecidableEq, Repr

/-- Model of `syn::Signature` restricted to the fields
`register_sigature` and `register_method` read. Token fields such as
`constness` are modelled by the optional span of the token; `syn` token
equality ignores spans, so two tokens are equal exactly when both are
present or both absent. -/
structure Signature where
  span : Span
  constness : Option Span
  asyncness : Option Span
  unsafety : Option Span
  abi : Option Abi
  genericsNonEmpty : Bool
  genericsSpan : Span
  whereClause : Option Span
  variadic : Option Span
  inputs : List FnArg
  output : Option RetTy
  deriving DecidableEq, Repr

/-- The default value `= ty` of an associated type declaration, with the
span of the default type (the `syn::Type` the analysis attaches notes to). -/
structure DefaultTy where
  span : Span
  ty : Ty
  deriving DecidableEq, Repr

/-- Model of `syn::TraitItemType` restricted to the fields
`register_context` / `register_output` read. -/
structure TraitItemType where
  span : Span
  ident : String
  genericsNonEmpty : Bool
  genericsSpan : Span
  whereClause : Option Span
  boundsNonEmpty : Bool
  boundsSpan : Span
  default : Option DefaultTy
  deriving DecidableEq, Repr

/-- Model of `syn::TraitItemMethod`: a signature and an optional default
implementation. The body itself is opaque to the validator, so only its
presence is modelled here. -/
structure TraitItemMethod where
  span : Span
  sig : Signature
  default : Bool
  deriving DecidableEq, Repr

/-- Model of `syn::TraitItem` with the constructors
`UnionFn::sort_items` and `UnionFn::analyze_item` distinguish. -/
inductive TraitItem where
  | method (m : TraitItemMethod)
  | type (t : TraitItemType)
  | constItem (span : Span)
  | macItem (span : Span)
  | verbatim (span : Span)
  deriving DecidableEq, Repr

/-- Model of `syn::ItemTrait` restricted to the fields `analyze_trait`
reads plus the item list. -/
structure ItemTrait where
  span : Span
  unsafety : Option Span
  autoToken : Option Span
  genericsNonEmpty : Bool
  genericsSpan : Span
  supertraitsNonEmpty : Bool
  items : List TraitItem
  deriving DecidableEq, Repr

/-- Model of `syn::Error`: a non-empty sequence of (span, message)
diagnostics. `Error::combine` (used through `ExtError::into_combine`,
src/macro/src/error.rs) appends, so a "combined" error is a list whose
head is the primary site and whose tail holds the notes. -/
abbrev Err := List (Span × String)

/-- Model of `syn::Result`. -/
abbrev SynResult (α : Type) := Except Err α

/-- `SharedSignature` (src/macro/src/analyse.rs:24): the calling
convention recorded from the first registered method. -/
structure SharedSignature where
  span : Span
  constness : Option Span
  asyncness : Option Span
  unsafety : Option Span
  abi : Option Abi
  output : Option RetTy
  deriving DecidableEq, Repr

/-- `SharedSignature::constness_span` (src/macro/src/analyse.rs:35). -/
def SharedSignature.constness_span (s : SharedSignature) : Span :=
  s.constness.getD s.span

/-- `SharedSignature::asyncness_span` (src/macro/src/analyse.rs:40). -/
def SharedSignature.asyncness_span (s : SharedSignature) : Span :=
  s.asyncness.getD s.span

/-- `SharedSignature::unsafety_span` (src/macro/src/analyse.rs:45). -/
def SharedSignature.unsafety_span (s : SharedSignature) : Span :=
  s.unsafety.getD s.span

/-- `SharedSignature::abi_span` (src/macro/src/analyse.rs:50). -/
def SharedSignature.abi_span (s : SharedSignature) : Span :=
  (s.abi.map Abi.span).getD s.span

/-- `UnionFnState` (src/macro/src/analyse.rs:14): the analysis state. -/
structure UnionFnState where
  context : Option TraitItemType := none
  output : Option TraitItemType := none
  signature : Option SharedSignature := none
  deriving DecidableEq, Repr

/-- `UnionFnState::default()`. -/
def UnionFnState.initial : UnionFnState := {}

/-- `UnionFnState::register_context` (src/macro/src/analyse.rs:62):
rejects a second `Context` declaration with a combined error naming both
sites, then validates that the declaration is unparameterized,
unconstrained, unbounded and carries a default type. -/
def UnionFnState.register_context (s : UnionFnState) (item : TraitItemType) :
    SynResult UnionFnState :=
  match s.context with
  | some context =>
      .error [(item.span, "encountered conflicting Context types in #[union_fn] trait"),
              (context.span, "previous Context definition here")]
  | none =>
      if item.genericsNonEmpty then
        .error [(item.genericsSpan, "cannot have generics for Context type in #[union_fn] trait")]
      else match item.whereClause with
      | some w =>
          .error [(w, "cannot have where clause for Context type in #[union_fn] trait")]
      | none =>
          if item.boundsNonEmpty then
            .error [(item.boundsSpan, "cannot have trait bounds for Context type in #[union_fn] trait")]
          else match item.default with
          | none =>
              .error [(item.span, "must have a default for Context type in #[union_fn] trait")]
          | some _ => .ok { s with context := some item }

/-- `UnionFnState::get_context` (src/macro/src/analyse.rs:103): the
default type of the registered `Context` declaration, if any. -/
def UnionFnState.get_context (s : UnionFnState) : Option DefaultTy :=
  s.context.bind TraitItemType.default

/-- `UnionFnState::register_output` (src/macro/src/analyse.rs:116):
same validation as `register_context`, for the `Output` declaration. -/
def UnionFnState.register_output (s : UnionFnState) (item : TraitItemType) :
    SynResult UnionFnState :=
  match s.output with
  | some output =>
      .error [(item.span, "encountered conflicting Output types in #[union_fn] trait"),
              (output.span, "previous Output definition here")]
  | none =>
      if item.genericsNonEmpty then
        .error [(item.genericsSpan, "cannot have generics for Output type in #[union_fn] trait")]
      else match item.whereClause with
      | some w =>
          .error [(w, "cannot have where clause for Output type in #[union_fn] trait")]
      | none =>
          if item.boundsNonEmpty then
            .error [(item.boundsSpan, "cannot have bounds for Output type in #[union_fn] trait")]
          else match item.default with
          | none =>
              .error [(item.span, "must have a default for Output type in #[union_fn] trait")]
          | some _ => .ok { s with output := some item }

/-- `UnionFnState::get_output` (src/macro/src/analyse.rs:157): the
default type of the registered `Output` declaration, if any. -/
def UnionFnState.get_output (s : UnionFnState) : Option DefaultTy :=
  s.output.bind TraitItemType.default

/-- `UnionFnState::get_output_type` (src/macro/src/analyse.rs:165): the
declared `Output` type, or else the return type recorded from the first
method, or else the empty tuple `()`. -/
def UnionFnState.get_output_type (s : UnionFnState) : Ty :=
  match s.get_output with
  | some d => d.ty
  | none =>
      match s.signature with
      | some sig =>
          match sig.output with
          | none => Ty.unit
          | some rt => rt.ty
      | none => Ty.unit

/-- `UnionFnState::register_type` (src/macro/src/analyse.rs:185):
dispatches on the associated type's identifier. -/
def UnionFnState.register_type (s : UnionFnState) (item : TraitItemType) :
    SynResult UnionFnState :=
  if item.ident = "Context" then s.register_context item
  else if item.ident = "Output" then s.register_output item
  else .error [(item.span, "encountered unsupported associated type for #[union_fn] trait")]

/-- `UnionFnState::register_sigature` (src/macro/src/analyse.rs:203):
rejects generic, where-clause-carrying and variadic signatures, then
either records the first signature as the shared baseline or compares
constness, asyncness, unsafety and abi against the baseline, reporting a
mismatch with a combined error at both methods. -/
def UnionFnState.register_sigature (s : UnionFnState) (sig : Signature) :
    SynResult UnionFnState :=
  if sig.genericsNonEmpty then
    .error [(sig.genericsSpan, "must not be generic")]
  else match sig.whereClause with
  | some w => .error [(w, "must not have a where clause")]
  | none =>
  match sig.variadic with
  | some v => .error [(v, "must not have variadic arguments")]
  | none =>
  match s.signature with
  | none =>
      let shared : SharedSignature :=
        { span := sig.span, constness := sig.constness, asyncness := sig.asyncness,
          unsafety := sig.unsafety, abi := sig.abi, output := sig.output }
      .ok { s with signature := some shared }
  | some signature =>
      let mkErr (errSpan : Option Span) (what : String) (misSpan : Span) : SynResult UnionFnState :=
        .error [(errSpan.getD sig.span, "encountered mismatch in " ++ what ++ " for #[union_fn] method"),
                (misSpan, "mismatch with this method")]
      if sig.constness.isSome ≠ signature.constness.isSome then
        mkErr sig.constness "constness" signature.constness_span
      else if sig.asyncness.isSome ≠ signature.asyncness.isSome then
        mkErr sig.asyncness "asyncness" signature.asyncness_span
      else if sig.unsafety.isSome ≠ signature.unsafety.isSome then
        mkErr sig.unsafety "unsafety" signature.unsafety_span
      else if ¬ abiEq sig.abi signature.abi then
        mkErr (sig.abi.map Abi.span) "abi" signature.abi_span
      else .ok s

/-- The return-type check of `UnionFnState::register_method`
(src/macro/src/analyse.rs:275-289): when an `Output` type is registered,
the declared return type must be the literal token sequence
`Self::Output`; a missing return type errors at the whole method, any
other return type errors at the return type, both combined with a note
at the `Output` default type. -/
def UnionFnState.outputCheck (s : UnionFnState) (item : TraitItemMethod) :
    SynResult Unit :=
  match s.get_output with
  | none => .ok ()
  | some output =>
      match item.sig.output with
      | none =>
          .error [(item.span, "must return Self::Output"),
                  (output.span, "since Output is defined here")]
      | some rt =>
          if rt.ty ≠ tySelfOutput then
            .error [(rt.span, "must return Self::Output"),
                    (output.span, "since Output is defined here")]
          else .ok ()

/-- The default-implementation check of `UnionFnState::register_method`
(src/macro/src/analyse.rs:290-292). -/
def UnionFnState.defaultCheck (item : TraitItemMethod) : SynResult Unit :=
  if item.default then .ok ()
  else .error [(item.span, "must have default implementation")]

/-- The receiver loop of `UnionFnState::register_method`
(src/macro/src/analyse.rs:293-297): bails at the first `self` receiver
among the inputs. -/
def receiverCheck : List FnArg → SynResult Unit
  | [] => .ok ()
  | .receiver span :: _ => .error [(span, "must not have self receiver argument")]
  | .typed _ :: rest => receiverCheck rest

/-- The context-parameter check of `UnionFnState::register_method`
(src/macro/src/analyse.rs:298-324): when a `Context` type is registered,
the first input must be a typed argument of type `&mut Self::Context`;
a method without inputs errors at its signature, a differently typed
first argument errors at that argument, both combined with a note at the
`Context` default type. -/
def UnionFnState.contextCheck (s : UnionFnState) (item : TraitItemMethod) :
    SynResult Unit :=
  match s.get_context with
  | none => .ok ()
  | some context =>
      match item.sig.inputs.head? with
      | some (.receiver receiver) =>
          .error [(receiver, "must not have a `self` receiver as first argument in #[union_fn] methods")]
      | some (.typed pt) =>
          if pt.ty ≠ tySelfContextRef then
            .error [(pt.span, "must have type of `&mut Self::Context` as first argument"),
                    (context.span, "since Context is defined here")]
          else .ok ()
      | none =>
          .error [(item.sig.span, "must have type of `&mut Self::Context` as first argument"),
                  (context.span, "since Context is defined here")]

/-- `UnionFnState::register_method` (src/macro/src/analyse.rs:273):
registers the signature against the shared baseline, then runs the
return-type, default-implementation, receiver and context-parameter
checks in source order. -/
def UnionFnState.register_method (s : UnionFnState) (item : TraitItemMethod) :
    SynResult UnionFnState := do
  let s ← s.register_sigature item.sig
  s.outputCheck item
  UnionFnState.defaultCheck item
  receiverCheck item.sig.inputs
  s.contextCheck item
  pure s

/-- `UnionFn::analyze_trait` (src/macro/src/analyse.rs:352): rejects
unsafe, auto, generic and supertrait-carrying traits before the item
list is looked at. The supertrait error is spanned at the generics, as
in the source. -/
def analyze_trait (item : ItemTrait) : SynResult Unit :=
  match item.unsafety with
  | some token =>
      .error [(token, "cannot have unsafe #[union_fn] trait; only associated methods can be unsafe")]
  | none =>
  match item.autoToken with
  | some token => .error [(token, "cannot have `auto` #[union_fn] trait")]
  | none =>
  if item.genericsNonEmpty then
    .error [(item.genericsSpan, "cannot have generic #[union_fn] trait")]
  else if item.supertraitsNonEmpty then
    .error [(item.genericsSpan, "cannot have supertraits for union functions")]
  else .ok ()

/-- `order_value` inside `UnionFn::sort_items`
(src/macro/src/analyse.rs:373): unsupported items sort first, associated
types next, methods last. -/
def order_value : TraitItem → Int
  | .constItem _ | .verbatim _ | .macItem _ => 0
  | .type _ => 1
  | .method _ => 2

/-- Stable insertion of an item into an already key-sorted list, keeping
an item before later items with the same key. -/
def insertByKey (x : TraitItem) : List TraitItem → List TraitItem
  | [] => [x]
  | y :: ys =>
      if order_value x ≤ order_value y then x :: y :: ys
      else y :: insertByKey x ys

/-- `UnionFn::sort_items` (src/macro/src/analyse.rs:372): Rust's
`sort_by_key` is a stable sort; it is modelled as a stable insertion
sort by `order_value`. -/
def sort_items : List TraitItem → List TraitItem
  | [] => []
  | x :: xs => insertByKey x (sort_items xs)

/-- `UnionFn::analyze_item` (src/macro/src/analyse.rs:414): methods and
associated types are registered, every other item kind is rejected. -/
def analyze_item (s : UnionFnState) : TraitItem → SynResult UnionFnState
  | .method m => s.register_method m
  | .type t => s.register_type t
  | .constItem span => .error [(span, "encountered unsupported trait item in #[union_fn] trait")]
  | .macItem span => .error [(span, "encountered unsupported trait item in #[union_fn] trait")]
  | .verbatim span => .error [(span, "encountered unsupported trait item in #[union_fn] trait")]

/-- `UnionFn::analyze_items` (src/macro/src/analyse.rs:402): fold
`analyze_item` over the items, short-circuiting on the first error. -/
def analyze_items (s : UnionFnState) : List TraitItem → SynResult UnionFnState
  | [] => .ok s
  | item :: rest => do analyze_items (← analyze_item s item) rest

/-- `UnionFn::new` (src/macro/src/analyse.rs:335): rejects non-empty
macro arguments, analyzes the trait header, sorts the items and runs the
analysis pass over them. Parsing of the raw token stream into
`ItemTrait` is the front-end step outside this model. The result pairs
the trait with sorted items and the final analysis state, as stored in
the `UnionFn` struct. -/
def UnionFn_new (argsNonEmpty : Bool) (argsSpan : Span) (item : ItemTrait) :
    SynResult (ItemTrait × UnionFnState) :=
  if argsNonEmpty then
    .error [(argsSpan, "cannot have macro arguments for #[union_fn]")]
  else match analyze_trait item with
  | .error e => .error e
  | .ok () =>
      let sorted := sort_items item.items
      match analyze_items UnionFnState.initial sorted with
      | .error e => .error e
      | .ok state => .ok ({ item with items := sorted }, state)

/-! ### Method introspection (src/macro/src/method.rs) -/

/-- `UnionFnMethod::inputs` (src/macro/src/method.rs:39): the typed
inputs of the method, with the context argument popped when the trait
registered a context. A `self` receiver panics in the source; methods
reaching expansion have passed `register_method`, which rejects
receivers, so receivers are skipped here. -/
def methodInputs (state : UnionFnState) (m : TraitItemMethod) : List PatType :=
  let typed := m.sig.inputs.filterMap fun
    | .receiver _ => none
    | .typed pt => some pt
  if state.get_context.isSome then typed.drop 1 else typed

/-- `UnionFnMethod::input_types` (src/macro/src/method.rs:54). -/
def input_types (state : UnionFnState) (m : TraitItemMethod) : List Ty :=
  (methodInputs state m).map PatType.ty

/-- `UnionFnMethod::ident_or_numbered` (src/macro/src/method.rs:108):
an identifier pattern keeps its name, everything else becomes the
artificial binding `_N`. -/
def ident_or_numbered (pat : Pat) (n : Nat) : String :=
  match pat with
  | .pathIdent s => s
  | .other => "_" ++ toString n

/-- `UnionFnMethod::input_bindings` (src/macro/src/method.rs:68). -/
def input_bindings (state : UnionFnState) (m : TraitItemMethod) : List String :=
  ((methodInputs state m).enum).map fun (n, pt) => ident_or_numbered pt.pat n

/-! ### Tuple construction (src/macro/src/utils.rs) -/

/-- The three output shapes of `make_tuple_type`
(src/macro/src/utils.rs:69): the empty tuple `()`, a single bare
element, or a parenthesized tuple of two or more elements. -/
inductive TupleTokens (α : Type) where
  | unit
  | single (a : α)
  | tuple (args : List α)
  deriving DecidableEq, Repr

/-- `make_tuple_type` (src/macro/src/utils.rs:69): `()` for no
arguments, the bare element for one argument, a tuple otherwise. The
source is generic over `ToTokens`, which the type parameter mirrors. -/
def make_tuple_type {α : Type} (args : List α) : TupleTokens α :=
  match args with
  | [] => .unit
  | [a] => .single a
  | args => .tuple args

/-! ### Semantics of the generated representations (src/macro/src/expand.rs)

A validated family with a declared context is abstracted as `Family`:
`n` operations, a context type, a shared output type, one packed
parameter-tuple type per operation and one implementation body per
operation (`Impls` of `expand_union_fn_impls`, with the `&mut` context
modelled as explicit state passing).

The generated artifacts are then:

* the tagged enum (`expand_union_fn_enum`) as a dependent pair of a tag
  and that operation's fields;
* the packed argument union (`expand_union_fn_args`) as a dependent
  pair of the written field and its payload — a union value written via
  the generated `Args::method` constructor and read at field `i` yields
  the payload exactly when `i` is the written field, and is undefined
  behaviour (`none`) otherwise;
* the delegators (`expand_union_fn_delegate`), which read the union
  field of their operation and invoke the implementation;
* the call-optimized struct (`expand_union_fn_opt`) as a handler
  function paired with a union value, with `call`
  (`expand_call_impl`) applying the handler to the context and args;
* `into_opt` (`expand_union_fn_opt_into_opt_arms`), which maps each
  enum variant to the `Opt` constructor of the same operation
  (`expand_constructors`: the matching delegator plus packed fields).
-/

/-- A validated operation family with context, as consumed by the
representation generator. -/
structure Family where
  n : Nat
  Ctx : Type
  Out : Type
  ArgT : Fin n → Type
  impls : (i : Fin n) → Ctx → ArgT i → Ctx × Out

/-- The tagged enum generated by `expand_union_fn_enum`: a tag plus that
operation's fields. -/
def EnumT (F : Family) : Type := Σ i : Fin F.n, F.ArgT i

/-- The packed argument union generated by `expand_union_fn_args`,
tracked together with which field was last written. -/
def ArgsU (F : Family) : Type := Σ i : Fin F.n, F.ArgT i

/-- The generated `Args::method` constructor
(`expand_union_args_constructors`, src/macro/src/expand.rs:394):
`Self { method: (fields...) }` writes the operation's field. -/
def packArgs (F : Family) (i : Fin F.n) (v : F.ArgT i) : ArgsU F := ⟨i, v⟩

/-- The unsafe union-field read `unsafe { args.method }` in the
delegator (src/macro/src/expand.rs:110): defined exactly when the field
read is the field that was written. -/
def readField (F : Family) (a : ArgsU F) (i : Fin F.n) : Option (F.ArgT i) :=
  if h : a.fst = i then some (h ▸ a.snd) else none

/-- The delegator of one operation (`expand_union_fn_delegate`,
src/macro/src/expand.rs:105-113): decode the packed arguments of the
operation, then invoke its implementation with the context. -/
def delegate (F : Family) (i : Fin F.n) (ctx : F.Ctx) (a : ArgsU F) :
    Option (F.Ctx × F.Out) :=
  (readField F a i).map fun v => F.impls i ctx v

/-- The call-optimized struct generated by `expand_union_fn_opt`
(src/macro/src/expand.rs:144-147): a handler function pointer paired
with the packed arguments. -/
structure OptT (F : Family) where
  handler : F.Ctx → ArgsU F → Option (F.Ctx × F.Out)
  args : ArgsU F

/-- The generated `Opt::method` constructor (`expand_constructors`,
src/macro/src/expand.rs:308-316): the operation's delegator plus its
packed arguments. -/
def OptT.construct (F : Family) (i : Fin F.n) (v : F.ArgT i) : OptT F :=
  { handler := delegate F i, args := packArgs F i v }

/-- `IntoOpt::into_opt` (`expand_union_fn_opt_into_opt_arms`,
src/macro/src/expand.rs:167-181): each enum variant maps to the `Opt`
constructor of the same operation with the variant's fields. -/
def into_opt (F : Family) (e : EnumT F) : OptT F :=
  OptT.construct F e.fst e.snd

/-- `CallWithContext::call` on the call-optimized struct
(`expand_call_impl`, src/macro/src/expand.rs:332-341):
`(self.handler)(ctx, &self.args)`. -/
def OptT.call (F : Family) (o : OptT F) (ctx : F.Ctx) : Option (F.Ctx × F.Out) :=
  o.handler ctx o.args

/-- `CallWithContext::call` on the tagged enum
(`expand_union_fn_enum_call_impl`, src/macro/src/expand.rs:250-260):
each match arm invokes the implementation directly. -/
def EnumT.call (F : Family) (e : EnumT F) (ctx : F.Ctx) : F.Ctx × F.Out :=
  F.impls e.fst ctx e.snd

/-- A validated operation family without context: the `None` branches of
`expand_call_impl` and `expand_union_fn_enum_call_impl` generate the
same code minus the context parameter. -/
structure FamilyNC where
  n : Nat
  Out : Type
  ArgT : Fin n → Type
  impls : (i : Fin n) → ArgT i → Out

/-- Tagged enum of a context-free family. -/
def EnumNC (F : FamilyNC) : Type := Σ i : Fin F.n, F.ArgT i

/-- Packed argument union of a context-free family. -/
def ArgsNC (F : FamilyNC) : Type := Σ i : Fin F.n, F.ArgT i

/-- Union-field read for a context-free family. -/
def readFieldNC (F : FamilyNC) (a : ArgsNC F) (i : Fin F.n) : Option (F.ArgT i) :=
  if h : a.fst = i then some (h ▸ a.snd) else none

/-- Delegator of one operation of a context-free family. -/
def delegateNC (F : FamilyNC) (i : Fin F.n) (a : ArgsNC F) : Option F.Out :=
  (readFieldNC F a i).map fun v => F.impls i v

/-- Call-optimized struct of a context-free family. -/
structure OptNC (F : FamilyNC) where
  handler : ArgsNC F → Option F.Out
  args : ArgsNC F

/-- `Opt::method` constructor of a context-free family. -/
def OptNC.construct (F : FamilyNC) (i : Fin F.n) (v : F.ArgT i) : OptNC F :=
  { handler := delegateNC F i, args := ⟨i, v⟩ }

/-- `IntoOpt::into_opt` of a context-free family. -/
def into_optNC (F : FamilyNC) (e : EnumNC F) : OptNC F :=
  OptNC.construct F e.fst e.snd

/-- `Call::call` on the call-optimized struct of a context-free family. -/
def OptNC.call (F : FamilyNC) (o : OptNC F) : Option F.Out :=
  o.handler o.args

/-! ### The `Counter::select` example family (src/macro/src/lib.rs:78-82)

`fn select(value: &mut Self::Context, choices: [i64; 4]) {
   *value = choices.get(*value as usize).copied().unwrap_or(0)
 }`
with `type Context = i64`. `i64` values are modelled as `Int` (no
arithmetic in the body can overflow: it only stores one of the four
choices or `0`), the `[i64; 4]` array as a quadruple, and the
`as usize` cast with its wrapping semantics on a 64-bit target. -/

/-- The Rust cast `v as usize` for `v: i64` on a 64-bit target:
wraps modulo `2 ^ 64`. -/
def i64_as_usize (v : Int) : Nat := (v % (2 : Int) ^ 64).toNat

/-- `<[i64; 4]>::get` on the model of a 4-element array:
`some` element for indices `0..=3`, `none` out of bounds. -/
def array4_get (c : Int × Int × Int × Int) (i : Nat) : Option Int :=
  match i with
  | 0 => some c.1
  | 1 => some c.2.1
  | 2 => some c.2.2.1
  | 3 => some c.2.2.2
  | _ => none

/-- The body of `Counter::select` (src/macro/src/lib.rs:80):
`*value = choices.get(*value as usize).copied().unwrap_or(0)`,
with the context mutation returned as the new context. -/
def select_body (value : Int) (choices : Int × Int × Int × Int) : Int × Unit :=
  ((array4_get choices (i64_as_usize value)).getD 0, ())

/-- The single-operation family `{select(choices: [i64; 4])}` over
context `i64` of the specification scenario. -/
abbrev selectFamily : Family where
  n := 1
  Ctx := Int
  Out := Unit
  ArgT := fun _ => Int × Int × Int × Int
  impls := fun _ value choices => select_body value choices

/-- The generated enum constructor `Counter::select(choices)`
(`expand_union_fn_enum_constructors`, src/macro/src/expand.rs:224-241). -/
def Counter_select (choices : Int × Int × Int × Int) : EnumT selectFamily :=
  ⟨0, choices⟩

/-! ### Concrete fixtures used by witnesses and counterexamples -/

/-- Fixture: a plain signature with the given span, inputs and return
type, and none of const/async/unsafe/abi/generics/where/variadic. -/
def plainSig (span : Span) (inputs : List FnArg) (output : Option RetTy) : Signature :=
  { span := span, constness := none, asyncness := none, unsafety := none, abi := none,
    genericsNonEmpty := false, genericsSpan := span, whereClause := none, variadic := none,
    inputs := inputs, output := output }

/-- Fixture: a method with a plain signature and a default body. -/
def plainMethod (span : Span) (inputs : List FnArg) (output : Option RetTy) :
    TraitItemMethod :=
  { span := span, sig := plainSig span inputs output, default := true }

/-- Fixture: a well-formed associated type declaration `type ident = ty;`. -/
def plainTypeDecl (span : Span) (ident : String) (defSpan : Span) (ty : Ty) :
    TraitItemType :=
  { span := span, ident := ident, genericsNonEmpty := false, genericsSpan := span,
    whereClause := none, boundsNonEmpty := false, boundsSpan := span,
    default := some { span := defSpan, ty := ty } }

/-- Fixture: `type Context = i64;` at span 1, default type at span 2. -/
def exContextDecl : TraitItemType := plainTypeDecl 1 "Context" 2 (Ty.path ["i64"])

/-- Fixture: `type Output = i32;` at span 3, default type at span 4. -/
def exOutputDecl : TraitItemType := plainTypeDecl 3 "Output" 4 (Ty.path ["i32"])

/-- Fixture: a plain trait header with the given items. -/
def plainTrait (items : List TraitItem) : ItemTrait :=
  { span := 0, unsafety := none, autoToken := none, genericsNonEmpty := false,
    genericsSpan := 0, supertraitsNonEmpty := false, items := items }

/-- The `SharedSignature` recorded from a first method's signature
(src/macro/src/analyse.rs:215-222). -/
def sharedOf (sig : Signature) : SharedSignature :=
  { span := sig.span, constness := sig.constness, asyncness := sig.asyncness,
    unsafety := sig.unsafety, abi := sig.abi, output := sig.output }

/-- A copy of a method with its declared return type replaced. -/
def withRet (m : TraitItemMethod) (rt : Option RetTy) : TraitItemMethod :=
  { m with sig := { m.sig with output := rt } }

/-! ## Theorems -/

/-- **C1.** For every valid operation family, every operation and every
argument tuple, constructing the tagged variant via the operation's enum
constructor, converting it with `into_opt` and invoking `call` (with the
context reference when a context is declared) yields exactly the result
of invoking that operation's body directly with the same arguments and
context — in particular the union-field read inside the delegator always
succeeds, so conversion is dispatch-preserving, for families with and
without context. -/
theorem into_opt_dispatch_preserving :
    (∀ (F : Family) (e : EnumT F) (ctx : F.Ctx),
        OptT.call F (into_opt F e) ctx = some (F.impls e.fst ctx e.snd)) ∧
    (∀ (F : FamilyNC) (e : EnumNC F),
        OptNC.call F (into_optNC F e) = some (F.impls e.fst e.snd)) := by
  constructor
  · intro F e ctx
    simp [OptT.call, into_opt, OptT.construct, delegate, packArgs, readField]
  · intro F e
    simp [OptNC.call, into_optNC, OptNC.construct, delegateNC, readFieldNC]

/-- **C7.** Dispatching the call-optimized form of
`Counter::select([11, 22, 33, 44])` against context values
`0, 1, 2, 3, 4` leaves the context at `11, 22, 33, 44, 0` respectively:
in-range contexts select the corresponding choice, the out-of-range
context `4` defaults to `0`. -/
theorem select_call_optimized_scenario :
    OptT.call selectFamily (into_opt selectFamily (Counter_select (11, 22, 33, 44))) 0
      = some (11, ()) ∧
    OptT.call selectFamily (into_opt selectFamily (Counter_select (11, 22, 33, 44))) 1
      = some (22, ()) ∧
    OptT.call selectFamily (into_opt selectFamily (Counter_select (11, 22, 33, 44))) 2
      = some (33, ()) ∧
    OptT.call selectFamily (into_opt selectFamily (Counter_select (11, 22, 33, 44))) 3
      = some (44, ()) ∧
    OptT.call selectFamily (into_opt selectFamily (Counter_select (11, 22, 33, 44))) 4
      = some (0, ()) := by
  refine ⟨?_, ?_, ?_, ?_, ?_⟩ <;> rfl

/-- **C4.** A second `Context` (resp. `Output`) declaration fails
validation with a conflict error attached to the second declaration and
combined with a note at the first declaration, so both declaration sites
are referenced. -/
theorem duplicate_declaration_conflict :
    ∀ (s : UnionFnState) (item : TraitItemType),
      (∀ c, s.context = some c →
        s.register_context item =
          .error [(item.span, "encountered conflicting Context types in #[union_fn] trait"),
                  (c.span, "previous Context definition here")]) ∧
      (∀ o, s.output = some o →
        s.register_output item =
          .error [(item.span, "encountered conflicting Output types in #[union_fn] trait"),
                  (o.span, "previous Output definition here")]) := by
  intro s item
  constructor
  · intro c hc
    simp [UnionFnState.register_context, hc]
  · intro o ho
    simp [UnionFnState.register_output, ho]

/-- Witness for C4: registering a second `Context` (at span 9) after
`exContextDecl` (at span 1) reports both spans 9 and 1; likewise for a
second `Output` (at span 9) after `exOutputDecl` (at span 3). -/
theorem duplicate_declaration_conflict_witness :
    UnionFnState.register_context
        { UnionFnState.initial with context := some exContextDecl }
        (plainTypeDecl 9 "Context" 10 (Ty.path ["u64"])) =
      .error [(9, "encountered conflicting Context types in #[union_fn] trait"),
              (1, "previous Context definition here")] ∧
    UnionFnState.register_output
        { UnionFnState.initial with output := some exOutputDecl }
        (plainTypeDecl 9 "Output" 10 (Ty.path ["u64"])) =
      .error [(9, "encountered conflicting Output types in #[union_fn] trait"),
              (3, "previous Output definition here")] :=
  ⟨(duplicate_declaration_conflict _ _).1 exContextDecl (by rfl),
   (duplicate_declaration_conflict _ _).2 exOutputDecl (by rfl)⟩

/-- **C8.** An operation with zero parameters (beyond the context, if
any) gets the empty tuple as its packed union field: `make_tuple_type`
maps its empty input-type list and its empty binding list to `()`
(union field declaration, `Args` constructor payload and delegator
binding alike), and packing an operation's arguments into the union and
reading them back in the delegator recovers exactly what was packed — for
a zero-parameter operation the payload type `Unit` has `()` as its only
value, so the round trip carries no data. -/
theorem zero_param_empty_tuple_roundtrip :
    (∀ (state : UnionFnState) (m : TraitItemMethod),
        methodInputs state m = [] →
        make_tuple_type (input_types state m) = TupleTokens.unit ∧
        make_tuple_type (input_bindings state m) = TupleTokens.unit) ∧
    (∀ (F : Family) (i : Fin F.n) (v : F.ArgT i),
        readField F (packArgs F i v) i = some v) ∧
    (∀ u : Unit, u = ()) := by
  refine ⟨?_, ?_, ?_⟩
  · intro state m h
    rw [input_types, input_bindings, h]
    exact ⟨rfl, rfl⟩
  · intro F i v
    simp [readField, packArgs]
  · intro u
    rfl

/-- Witness for C8: the method `fn reset(value: &mut Self::Context)`
of the `Counter` example has zero parameters once the context argument
is popped, and both its union field type and its constructor payload are
the empty tuple; packing `()` for the single operation of `selectFamily`
would read back — shown instead on the select arguments, which read back
exactly. -/
theorem zero_param_empty_tuple_roundtrip_witness :
    methodInputs
        { UnionFnState.initial with context := some exContextDecl }
        (plainMethod 5 [.typed { span := 6, pat := .pathIdent "value", ty := tySelfContextRef }] none)
      = [] ∧
    make_tuple_type (input_types
        { UnionFnState.initial with context := some exContextDecl }
        (plainMethod 5 [.typed { span := 6, pat := .pathIdent "value", ty := tySelfContextRef }] none))
      = TupleTokens.unit :=
  ⟨by rfl,
   ((zero_param_empty_tuple_roundtrip.1 _ _ (by rfl)).1)⟩

/-- Counterexample for C3: the claim says an operation returning the
declared output type passes validation. With `type Output = i32;` and a
method declared `-> i32` — the declared output type, written exactly —
validation of the whole trait fails: `register_method` compares the
return type against the literal token sequence `Self::Output`, not
against the declared output type. -/
theorem output_alias_return_counterexample :
    UnionFn_new false 0
        (plainTrait [.type exOutputDecl,
                     .method (plainMethod 5 [] (some { span := 6, ty := Ty.path ["i32"] }))]) =
      .error [(6, "must return Self::Output"), (4, "since Output is defined here")] := by
  rfl

/-- **C3 (amended).** When an `Output` type is declared, an operation
passes the return-type check exactly when its declared return type is
the literal token sequence `Self::Output`: an absent return type fails
at generation time with an error at the whole method, and any other
return type — including a textual repetition of the declared output type
itself — fails with an error at the offending return type, both combined
with a note at the `Output` declaration's default type. The check runs
inside the macro's analysis, before any code is emitted, never at first
invocation. -/
theorem output_return_must_be_self_output :
    ∀ (s s' : UnionFnState) (m : TraitItemMethod) (d : DefaultTy),
      s.register_sigature m.sig = .ok s' →
      s'.get_output = some d →
      ((m.sig.output = none →
          s.register_method m =
            .error [(m.span, "must return Self::Output"),
                    (d.span, "since Output is defined here")]) ∧
       (∀ rt, m.sig.output = some rt → rt.ty ≠ tySelfOutput →
          s.register_method m =
            .error [(rt.span, "must return Self::Output"),
                    (d.span, "since Output is defined here")]) ∧
       (∀ rt, m.sig.output = some rt → rt.ty = tySelfOutput →
          s'.outputCheck m = .ok ())) := by
  intro s s' m d hsig hout
  refine ⟨?_, ?_, ?_⟩
  · intro hnone
    simp [UnionFnState.register_method, hsig, UnionFnState.outputCheck, hout, hnone,
          bind, Except.bind, Functor.map, Except.map]
  · intro rt hrt hne
    simp [UnionFnState.register_method, hsig, UnionFnState.outputCheck, hout, hrt, hne,
          bind, Except.bind, Functor.map, Except.map]
  · intro rt hrt heq
    simp [UnionFnState.outputCheck, hout, hrt, heq]

/-- Witness for C3: with `type Output = i32;` registered (note span 4),
a method returning `i32` at span 6 is rejected with the combined error. -/
theorem output_return_must_be_self_output_witness :
    UnionFnState.register_method
        { UnionFnState.initial with output := some exOutputDecl }
        (plainMethod 5 [] (some { span := 6, ty := Ty.path ["i32"] })) =
      .error [(6, "must return Self::Output"), (4, "since Output is defined here")] :=
  (output_return_must_be_self_output _ _ _ _ (by rfl) (by rfl)).2.1
    _ (by rfl) (by decide)

/-- **C5.** When a `Context` type is declared, a method whose inputs
pass the receiver check but do not start with a parameter of the literal
type `&mut Self::Context` fails validation: a method with no inputs at
all errors at its signature, a method whose first typed parameter has
any other type errors at that parameter, both combined with a note at
the `Context` declaration's default type; a method whose first parameter
is `&mut Self::Context` passes `register_method`. -/
theorem context_first_param :
    ∀ (s s' : UnionFnState) (m : TraitItemMethod) (cd : DefaultTy),
      s.register_sigature m.sig = .ok s' →
      s'.get_context = some cd →
      s'.outputCheck m = .ok () →
      UnionFnState.defaultCheck m = .ok () →
      receiverCheck m.sig.inputs = .ok () →
      ((m.sig.inputs = [] →
          s.register_method m =
            .error [(m.sig.span, "must have type of `&mut Self::Context` as first argument"),
                    (cd.span, "since Context is defined here")]) ∧
       (∀ pt rest, m.sig.inputs = .typed pt :: rest → pt.ty ≠ tySelfContextRef →
          s.register_method m =
            .error [(pt.span, "must have type of `&mut Self::Context` as first argument"),
                    (cd.span, "since Context is defined here")]) ∧
       (∀ pt rest, m.sig.inputs = .typed pt :: rest → pt.ty = tySelfContextRef →
          s.register_method m = .ok s')) := by
  intro s s' m cd hsig hctx hout hdef hrec
  refine ⟨?_, ?_, ?_⟩
  · intro hnil
    simp [UnionFnState.register_method, hsig, hout, hdef, hrec,
          UnionFnState.contextCheck, hctx, hnil, receiverCheck,
          bind, Except.bind, Functor.map, Except.map]
  · intro pt rest hcons hne
    have hrec2 : receiverCheck rest = .ok () := by
      rw [hcons] at hrec
      simpa [receiverCheck] using hrec
    simp [UnionFnState.register_method, hsig, hout, hdef, hrec2,
          UnionFnState.contextCheck, hctx, hcons, hne, receiverCheck,
          bind, Except.bind, Functor.map, Except.map]
  · intro pt rest hcons heq
    have hrec2 : receiverCheck rest = .ok () := by
      rw [hcons] at hrec
      simpa [receiverCheck] using hrec
    simp [UnionFnState.register_method, hsig, hout, hdef, hrec2,
          UnionFnState.contextCheck, hctx, hcons, heq, receiverCheck,
          bind, Except.bind, Functor.map, Except.map, pure, Except.pure]

/-- Witness for C5: with `type Context = i64;` registered (note span 2),
a method whose only parameter has type `i32` at span 7 is rejected with
the combined error naming the parameter and the context site. -/
theorem context_first_param_witness :
    UnionFnState.register_method
        { UnionFnState.initial with context := some exContextDecl }
        (plainMethod 5 [.typed { span := 7, pat := .pathIdent "x", ty := Ty.path ["i32"] }] none) =
      .error [(7, "must have type of `&mut Self::Context` as first argument"),
              (2, "since Context is defined here")] :=
  (context_first_param _ _ _ _ (by rfl) (by rfl) (by rfl) (by rfl) (by rfl)).2.1
    _ _ (by rfl) (by decide)

/-- **C6.** The first structurally well-formed method signature
establishes the shared baseline; every later signature is compared
against that baseline in constness, asyncness, unsafety and abi, in this
order, and a mismatch fails validation with an error at the mismatched
method's token (or its whole signature when the token is absent)
combined with a note at the baseline method's corresponding span —
both methods are reported. When all four attributes match, registration
succeeds and leaves the baseline unchanged. -/
theorem signature_uniformity :
    (∀ (s : UnionFnState) (sig : Signature),
        s.signature = none → sig.genericsNonEmpty = false →
        sig.whereClause = none → sig.variadic = none →
        s.register_sigature sig = .ok { s with signature := some (sharedOf sig) }) ∧
    (∀ (s : UnionFnState) (sig : Signature) (sh : SharedSignature),
        s.signature = some sh → sig.genericsNonEmpty = false →
        sig.whereClause = none → sig.variadic = none →
        ((sig.constness.isSome ≠ sh.constness.isSome →
            s.register_sigature sig =
              .error [(sig.constness.getD sig.span,
                       "encountered mismatch in constness for #[union_fn] method"),
                      (sh.constness_span, "mismatch with this method")]) ∧
         (sig.constness.isSome = sh.constness.isSome →
          sig.asyncness.isSome ≠ sh.asyncness.isSome →
            s.register_sigature sig =
              .error [(sig.asyncness.getD sig.span,
                       "encountered mismatch in asyncness for #[union_fn] method"),
                      (sh.asyncness_span, "mismatch with this method")]) ∧
         (sig.constness.isSome = sh.constness.isSome →
          sig.asyncness.isSome = sh.asyncness.isSome →
          sig.unsafety.isSome ≠ sh.unsafety.isSome →
            s.register_sigature sig =
              .error [(sig.unsafety.getD sig.span,
                       "encountered mismatch in unsafety for #[union_fn] method"),
                      (sh.unsafety_span, "mismatch with this method")]) ∧
         (sig.constness.isSome = sh.constness.isSome →
          sig.asyncness.isSome = sh.asyncness.isSome →
          sig.unsafety.isSome = sh.unsafety.isSome →
          ¬ abiEq sig.abi sh.abi →
            s.register_sigature sig =
              .error [((sig.abi.map Abi.span).getD sig.span,
                       "encountered mismatch in abi for #[union_fn] method"),
                      (sh.abi_span, "mismatch with this method")]) ∧
         (sig.constness.isSome = sh.constness.isSome →
          sig.asyncness.isSome = sh.asyncness.isSome →
          sig.unsafety.isSome = sh.unsafety.isSome →
          abiEq sig.abi sh.abi →
            s.register_sigature sig = .ok s))) := by
  constructor
  · intro s sig h1 h2 h3 h4
    simp [UnionFnState.register_sigature, h1, h2, h3, h4, sharedOf]
  · intro s sig sh hs h2 h3 h4
    refine ⟨?_, ?_, ?_, ?_, ?_⟩
    · intro hc
      simp [UnionFnState.register_sigature, hs, h2, h3, h4, hc]
    · intro hc ha
      simp [UnionFnState.register_sigature, hs, h2, h3, h4, hc, ha]
    · intro hc ha hu
      simp [UnionFnState.register_sigature, hs, h2, h3, h4, hc, ha, hu]
    · intro hc ha hu hab
      simp [UnionFnState.register_sigature, hs, h2, h3, h4, hc, ha, hu, hab]
    · intro hc ha hu hab
      simp [UnionFnState.register_sigature, hs, h2, h3, h4, hc, ha, hu, hab]

/-- Witness for C6: after a plain first signature at span 5 established
the baseline, a `const` signature (token at span 8) is rejected with the
combined error naming the mismatched token (8) and the baseline
signature (5). -/
theorem signature_uniformity_witness :
    UnionFnState.register_sigature
        { UnionFnState.initial with signature := some (sharedOf (plainSig 5 [] none)) }
        { plainSig 9 [] none with constness := some 8 } =
      .error [(8, "encountered mismatch in constness for #[union_fn] method"),
              (5, "mismatch with this method")] :=
  (signature_uniformity.2 _ _ (sharedOf (plainSig 5 [] none))
      (by rfl) (by rfl) (by rfl) (by rfl)).1 (by decide)

/-- A successful `register_sigature` either records the first signature
as the shared baseline (when none was recorded) or leaves the state
untouched (when a baseline already exists). -/
theorem register_sigature_ok_cases (s s' : UnionFnState) (sig : Signature)
    (h : s.register_sigature sig = .ok s') :
    (s.signature = none ∧ s' = { s with signature := some (sharedOf sig) }) ∨
    (∃ sh, s.signature = some sh ∧ s' = s) := by
  cases hgb : sig.genericsNonEmpty with
  | true => simp [UnionFnState.register_sigature, hgb] at h
  | false =>
    cases hw : sig.whereClause with
    | some w => simp [UnionFnState.register_sigature, hgb, hw] at h
    | none =>
      cases hv : sig.variadic with
      | some v => simp [UnionFnState.register_sigature, hgb, hw, hv] at h
      | none =>
        cases hsg : s.signature with
        | none =>
          simp [UnionFnState.register_sigature, hgb, hw, hv, hsg] at h
          exact Or.inl ⟨rfl, h.symm⟩
        | some sh =>
          simp [UnionFnState.register_sigature, hgb, hw, hv, hsg] at h
          refine Or.inr ⟨sh, rfl, ?_⟩
          split_ifs at h with h1 h2 h3 h4
          all_goals simp_all

/-- `register_sigature` never touches the recorded context or output
declaration. -/
theorem register_sigature_preserves (s s' : UnionFnState) (sig : Signature)
    (h : s.register_sigature sig = .ok s') :
    s'.output = s.output ∧ s'.context = s.context := by
  rcases register_sigature_ok_cases s s' sig h with ⟨_, rfl⟩ | ⟨sh, _, rfl⟩ <;>
    exact ⟨rfl, rfl⟩

/-- Without a registered `Output` declaration the return-type check of
`register_method` is vacuous. -/
theorem outputCheck_of_none (s : UnionFnState) (m : TraitItemMethod)
    (h : s.output = none) : s.outputCheck m = .ok () := by
  simp [UnionFnState.outputCheck, UnionFnState.get_output, h]

/-- Once a shared baseline exists, `register_sigature` does not examine
the signature's return type at all. -/
theorem register_sigature_output_irrel (s : UnionFnState) (sig : Signature)
    (sh : SharedSignature) (rt : Option RetTy) (hs : s.signature = some sh) :
    s.register_sigature { sig with output := rt } = s.register_sigature sig := by
  simp [UnionFnState.register_sigature, hs]

/-- Counterexample for C2: the claim says that without an `Output`
declaration, validation fails for a subsequent operation whose declared
return type differs from the first operation's. In the concrete family
with two methods returning `i32` and `u32` respectively and no `Output`
declaration, the whole `#[union_fn]` analysis succeeds: the validator
records the first return type but never compares later ones against it. -/
theorem differing_return_types_pass_validation :
    (UnionFn_new false 0 (plainTrait
        [.method (plainMethod 5 [] (some { span := 6, ty := Ty.path ["i32"] })),
         .method (plainMethod 7 [] (some { span := 8, ty := Ty.path ["u32"] }))])).isOk
      = true := by
  rfl

/-- **C2 (amended).** Without an `Output` declaration the effective
output type is inferred from the first registered operation's declared
return type — the empty tuple `()` when the family has no operations or
the first operation has no return type — and later registrations leave
that baseline unchanged; but a subsequent operation whose declared
return type differs is *not* rejected: once the baseline exists and no
`Output` is declared, `register_method` is entirely independent of the
method's return type, so the mismatch surfaces only when the generated
code is type-checked, not in this validation. -/
theorem output_inference :
    (∀ (s s' : UnionFnState) (sig : Signature),
        s.signature = none → s.output = none →
        s.register_sigature sig = .ok s' →
        s'.get_output_type = (match sig.output with
          | none => Ty.unit
          | some rt => rt.ty)) ∧
    (UnionFnState.initial.get_output_type = Ty.unit) ∧
    (∀ (s s' : UnionFnState) (sig : Signature) (sh : SharedSignature),
        s.signature = some sh → s.register_sigature sig = .ok s' → s' = s) ∧
    (∀ (s : UnionFnState) (sh : SharedSignature) (m : TraitItemMethod) (rt : Option RetTy),
        s.signature = some sh → s.output = none →
        s.register_method (withRet m rt) = s.register_method m) := by
  refine ⟨?_, rfl, ?_, ?_⟩
  · intro s s' sig hn ho hok
    rcases register_sigature_ok_cases s s' sig hok with ⟨_, rfl⟩ | ⟨sh, hsh, rfl⟩
    · cases hso : sig.output <;>
        simp [UnionFnState.get_output_type, UnionFnState.get_output, ho, sharedOf, hso]
    · rw [hn] at hsh
      cases hsh
  · intro s s' sig sh hs hok
    rcases register_sigature_ok_cases s s' sig hok with ⟨hnone, _⟩ | ⟨sh', _, rfl⟩
    · rw [hs] at hnone
      cases hnone
    · rfl
  · intro s sh m rt hs ho
    have hsig_eq : s.register_sigature (withRet m rt).sig = s.register_sigature m.sig :=
      register_sigature_output_irrel s m.sig sh rt hs
    unfold UnionFnState.register_method
    rw [hsig_eq]
    cases hres : s.register_sigature m.sig with
    | error e => simp [bind, Except.bind]
    | ok s₁ =>
      have hpres := register_sigature_preserves s s₁ m.sig hres
      have h1 : s₁.outputCheck (withRet m rt) = .ok () :=
        outputCheck_of_none _ _ (by rw [hpres.1, ho])
      have h2 : s₁.outputCheck m = .ok () :=
        outputCheck_of_none _ _ (by rw [hpres.1, ho])
      simp [bind, Except.bind, h1, h2]
      rfl

/-- Witness for C2: registering a first method returning `i32` into the
fresh state makes the inferred output type `i32`. -/
theorem output_inference_witness :
    UnionFnState.get_output_type
        { UnionFnState.initial with
          signature := some (sharedOf (plainSig 5 [] (some { span := 6, ty := Ty.path ["i32"] }))) }
      = Ty.path ["i32"] :=
  output_inference.1 UnionFnState.initial _
    (plainSig 5 [] (some { span := 6, ty := Ty.path ["i32"] }))
    (by rfl) (by rfl) (by rfl)

/-- `order_value` only takes the values 0, 1 and 2. -/
theorem order_value_mem012 (i : TraitItem) :
    order_value i = 0 ∨ order_value i = 1 ∨ order_value i = 2 := by
  cases i <;> simp [order_value]

/-- `order_value` is never negative. -/
theorem order_value_nonneg (i : TraitItem) : 0 ≤ order_value i := by
  cases i <;> simp [order_value]

/-- Inserting before a list whose members all have a key not below the
inserted item's key places the item at the front. -/
theorem insertByKey_cons_le (x : TraitItem) (l : List TraitItem)
    (h : ∀ y ∈ l, order_value x ≤ order_value y) : insertByKey x l = x :: l := by
  cases l with
  | nil => rfl
  | cons y ys =>
    simp only [insertByKey]
    rw [if_pos (h y (List.mem_cons_self y ys))]

/-- Insertion skips over a prefix of strictly smaller keys. -/
theorem insertByKey_append_lt (x : TraitItem) (pre rest : List TraitItem)
    (h : ∀ y ∈ pre, order_value y < order_value x) :
    insertByKey x (pre ++ rest) = pre ++ insertByKey x rest := by
  induction pre with
  | nil => rfl
  | cons y ys ih =>
    have hy : order_value y < order_value x := h y (List.mem_cons_self y ys)
    simp only [List.cons_append, insertByKey, List.append_eq]
    rw [if_neg (not_le.mpr hy), ih fun z hz => h z (List.mem_cons_of_mem y hz)]

/-- Members of a key-filtered list have that key. -/
theorem mem_filter_key (k : Int) (l : List TraitItem) (y : TraitItem)
    (hy : y ∈ l.filter fun i => order_value i == k) : order_value y = k := by
  have h := (List.mem_filter.mp hy).2
  simpa using h

/-- The stable sort by `order_value` is exactly the concatenation of the
three key buckets in source order. -/
theorem sort_items_partition (items : List TraitItem) :
    sort_items items =
      (items.filter fun i => order_value i == 0) ++
      (items.filter fun i => order_value i == 1) ++
      (items.filter fun i => order_value i == 2) := by
  induction items with
  | nil => rfl
  | cons x xs ih =>
    simp only [sort_items, ih]
    rcases order_value_mem012 x with h | h | h
    · have hall : ∀ y ∈ ((xs.filter fun i => order_value i == 0) ++
          (xs.filter fun i => order_value i == 1) ++
          (xs.filter fun i => order_value i == 2)),
          order_value x ≤ order_value y := by
        intro y _
        rw [h]
        exact order_value_nonneg y
      rw [insertByKey_cons_le x _ hall]
      simp [List.filter_cons, h]
    · have hpre : ∀ y ∈ (xs.filter fun i => order_value i == 0),
          order_value y < order_value x := by
        intro y hy
        rw [h, mem_filter_key 0 xs y hy]
        decide
      have hsuf : ∀ y ∈ ((xs.filter fun i => order_value i == 1) ++
          (xs.filter fun i => order_value i == 2)),
          order_value x ≤ order_value y := by
        intro y hy
        rw [h]
        rcases List.mem_append.mp hy with h1 | h2
        · rw [mem_filter_key 1 xs y h1]
        · rw [mem_filter_key 2 xs y h2]
          decide
      rw [List.append_assoc, insertByKey_append_lt x _ _ hpre,
          insertByKey_cons_le x _ hsuf]
      simp [List.filter_cons, h]
    · have hpre : ∀ y ∈ ((xs.filter fun i => order_value i == 0) ++
          (xs.filter fun i => order_value i == 1)),
          order_value y < order_value x := by
        intro y hy
        rw [h]
        rcases List.mem_append.mp hy with h1 | h2
        · rw [mem_filter_key 0 xs y h1]
          decide
        · rw [mem_filter_key 1 xs y h2]
          decide
      have hsuf : ∀ y ∈ (xs.filter fun i => order_value i == 2),
          order_value x ≤ order_value y := by
        intro y hy
        rw [h, mem_filter_key 2 xs y hy]
      rw [insertByKey_append_lt x _ _ hpre, insertByKey_cons_le x _ hsuf]
      simp [List.filter_cons, h]

/-- `analyze_items` distributes over concatenation of item lists. -/
theorem analyze_items_append (s : UnionFnState) (a b : List TraitItem) :
    analyze_items s (a ++ b) =
      (analyze_items s a).bind fun s' => analyze_items s' b := by
  induction a generalizing s with
  | nil => simp [analyze_items, Except.bind]
  | cons i rest ih =>
    simp only [List.cons_append, analyze_items]
    cases analyze_item s i with
    | error e => simp [bind, Except.bind, Except.bind]
    | ok s' => simp [bind, Except.bind, ih]

/-- **C9.** `sort_items` reorders the trait items into unsupported items
first, associated types next and methods last, preserving source order
inside each class — so the single analysis pass over the sorted items
(`UnionFn::new` runs `analyze_items` on `sort_items item.items`)
processes every `Context`/`Output` declaration, wherever it appeared in
the source, before any method is examined. -/
theorem types_analyzed_before_methods :
    ∀ items : List TraitItem,
      sort_items items =
        (items.filter fun i => order_value i == 0) ++
        (items.filter fun i => order_value i == 1) ++
        (items.filter fun i => order_value i == 2) ∧
      ∀ s : UnionFnState,
        analyze_items s (sort_items items) =
          (analyze_items s (items.filter fun i => order_value i == 0)).bind fun s0 =>
          (analyze_items s0 (items.filter fun i => order_value i == 1)).bind fun s1 =>
          analyze_items s1 (items.filter fun i => order_value i == 2) := by
  intro items
  refine ⟨sort_items_partition items, ?_⟩
  intro s
  rw [sort_items_partition items, analyze_items_append, analyze_items_append]
  cases analyze_items s (items.filter fun i => order_value i == 0) with
  | error e => simp [Except.bind]
  | ok s0 => simp [Except.bind]

/-- The four trait-header rejections of `analyze_trait`. -/
theorem analyze_trait_err (item : ItemTrait)
    (h : item.unsafety.isSome = true ∨ item.autoToken.isSome = true ∨
         item.genericsNonEmpty = true ∨ item.supertraitsNonEmpty = true) :
    ∃ e, analyze_trait item = .error e := by
  cases hu : item.unsafety with
  | some t =>
    exact ⟨[(t, "cannot have unsafe #[union_fn] trait; only associated methods can be unsafe")],
           by simp [analyze_trait, hu]⟩
  | none =>
    cases ha : item.autoToken with
    | some t =>
      exact ⟨[(t, "cannot have `auto` #[union_fn] trait")], by simp [analyze_trait, hu, ha]⟩
    | none =>
      cases hg : item.genericsNonEmpty with
      | true =>
        exact ⟨[(item.genericsSpan, "cannot have generic #[union_fn] trait")],
               by simp [analyze_trait, hu, ha, hg]⟩
      | false =>
        have hsup : item.supertraitsNonEmpty = true := by
          rcases h with h | h | h | h
          · rw [hu] at h
            cases h
          · rw [ha] at h
            cases h
          · rw [hg] at h
            cases h
          · exact h
        exact ⟨[(item.genericsSpan, "cannot have supertraits for union functions")],
               by simp [analyze_trait, hu, ha, hg, hsup]⟩

/-- **C10.** Non-empty macro arguments, an `unsafe` trait, an `auto`
trait, a generic trait or a trait with supertraits each make
`UnionFn::new` fail before any trait item is analyzed: the result is an
error, and it is the same error the trait with its item list emptied
would produce — no item is looked at and no representation is
generated. -/
theorem trait_header_preconditions :
    ∀ (argsNonEmpty : Bool) (argsSpan : Span) (item : ItemTrait),
      (argsNonEmpty = true ∨ item.unsafety.isSome = true ∨
       item.autoToken.isSome = true ∨ item.genericsNonEmpty = true ∨
       item.supertraitsNonEmpty = true) →
      (UnionFn_new argsNonEmpty argsSpan item).isOk = false ∧
      UnionFn_new argsNonEmpty argsSpan item =
        UnionFn_new argsNonEmpty argsSpan { item with items := [] } := by
  intro args argsSpan item h
  cases hargs : args with
  | true => exact ⟨by simp [UnionFn_new, Except.isOk, Except.toBool], by simp [UnionFn_new]⟩
  | false =>
    have h' : item.unsafety.isSome = true ∨ item.autoToken.isSome = true ∨
        item.genericsNonEmpty = true ∨ item.supertraitsNonEmpty = true := by
      rcases h with h | h | h | h | h
      · rw [hargs] at h
        cases h
      · exact Or.inl h
      · exact Or.inr (Or.inl h)
      · exact Or.inr (Or.inr (Or.inl h))
      · exact Or.inr (Or.inr (Or.inr h))
    obtain ⟨e, he⟩ := analyze_trait_err item h'
    have he' : analyze_trait { item with items := [] } = .error e := he
    constructor
    · simp [UnionFn_new, he, Except.isOk, Except.toBool]
    · simp [UnionFn_new, he, he']

/-- Witness for C10: a trait declared `unsafe` (token at span 7) with one
method item is rejected by `UnionFn::new`. -/
theorem trait_header_preconditions_witness :
    (UnionFn_new false 0
        { plainTrait [.method (plainMethod 5 [] none)] with unsafety := some 7 }).isOk
      = false :=
  (trait_header_preconditions false 0 _ (Or.inr (Or.inl (by rfl)))).1

end UnionFnSpec
